import Mathlib

/-!
Shallow embedding of the Audiobookshelf Home Assistant integration
(`custom_components/audiobookshelf/sensor.py` and `binary_sensor.py`).

JSON values are modelled by a mutual inductive type (`Json`, `JsonList`,
`JsonFields`); Python dicts appearing as JSON objects keep insertion order,
as Python dicts do.  Python numbers (int and float alike) are modelled as
rationals; Python `round` (banker's rounding on ideal decimals) is modelled
exactly on rationals.  Fallible Python code (KeyError, AttributeError,
TypeError, dacite errors) is modelled with `Except PyError`.
-/

mutual

/-- A JSON value as handled by the integration. -/
inductive Json : Type where
  | null : Json
  | bool : Bool → Json
  | num : ℚ → Json
  | str : String → Json
  | arr : JsonList → Json
  | obj : JsonFields → Json

/-- A JSON array. -/
inductive JsonList : Type where
  | nil : JsonList
  | cons : Json → JsonList → JsonList

/-- The fields of a JSON object, in insertion order. -/
inductive JsonFields : Type where
  | nil : JsonFields
  | cons : String → Json → JsonFields → JsonFields

end

/-- Convert a modelled JSON array to a Lean list of values. -/
def JsonList.toList : JsonList → List Json
  | .nil => []
  | .cons v rest => v :: rest.toList

/-- Python `d[k]`-style lookup on a JSON object: the first (unique) binding. -/
def lookupField : JsonFields → String → Option Json
  | .nil, _ => none
  | .cons k' v rest, k => if k' = k then some v else lookupField rest k

/-- Python `d[k] = v` on a JSON object: overwrite in place, else append. -/
def setField : JsonFields → String → Json → JsonFields
  | .nil, k, v => .cons k v .nil
  | .cons k' v' rest, k, v =>
    if k' = k then .cons k' v rest else .cons k' v' (setField rest k v)

/-- Python `d.update(d2)` on JSON objects: a sequence of key assignments. -/
def fieldsUpdate : JsonFields → JsonFields → JsonFields
  | d, .nil => d
  | d, .cons k v rest => fieldsUpdate (setField d k v) rest

/-- Number of fields of a JSON object (Python `len` on a dict). -/
def JsonFields.length : JsonFields → Nat
  | .nil => 0
  | .cons _ _ rest => rest.length + 1

/-- Length of a JSON array (Python `len` on a list). -/
def JsonList.length : JsonList → Nat
  | .nil => 0
  | .cons _ rest => rest.length + 1

/-- Python truthiness of a JSON value (`if x:`). -/
def pyTruthy : Json → Bool
  | .null => false
  | .bool b => b
  | .num q => decide (q ≠ 0)
  | .str s => decide (s ≠ "")
  | .arr .nil => false
  | .arr _ => true
  | .obj .nil => false
  | .obj _ => true

/-- Python `x in (0, None)`: equality with `0` (ints, floats and `False`
compare equal to `0` in Python) or with `None`. -/
def isZeroOrNone : Json → Bool
  | .null => true
  | .num q => decide (q = 0)
  | .bool b => !b
  | _ => false

/-- Python exceptions that the modelled code can raise. -/
inductive PyError : Type where
  | keyError : String → PyError
  | typeError : String → PyError
  | attributeError : PyError
  | dataError : String → PyError

/-- Floor of a rational number, computably. -/
def ratFloor (q : ℚ) : ℤ := q.num.fdiv (q.den : ℤ)

/-- Python `round` to the nearest integer with ties to even (modelled on
exact rationals rather than binary floating point). -/
def pyRound (q : ℚ) : ℤ :=
  let n := ratFloor q
  let r := q - (n : ℚ)
  if r < 1 / 2 then n
  else if 1 / 2 < r then n + 1
  else if n % 2 = 0 then n else n + 1

/-- Python `round(q, nd)` with an explicit number of decimal digits. -/
def pyRoundTo (nd : ℕ) (q : ℚ) : ℚ := (pyRound (q * 10 ^ nd) : ℚ) / 10 ^ nd

/-- Source `get_total_duration`: seconds to hours, rounded to 0 decimals;
`None` is passed through. -/
def get_total_duration (total_duration : Option ℚ) : Option ℚ :=
  match total_duration with
  | none => none
  | some x => some (pyRoundTo 0 (x / 60 / 60))

/-- Source `get_total_size`: bytes to GB, rounded to 2 decimals;
`None` is passed through. -/
def get_total_size (total_size : Option ℚ) : Option ℚ :=
  match total_size with
  | none => none
  | some x => some (pyRoundTo 2 (x / 1024 / 1024 / 1024))

/-- Key conversion inside `camel_to_snake`: prepend `_` to each uppercase
letter, lowercase it, then strip all leading underscores (Python
`"".join(...)` followed by `.lstrip("_")`); `isupper` is modelled on ASCII. -/
def convertKey (key : String) : String :=
  let pieces := key.data.map fun c => if c.isUpper then ['_', c.toLower] else [c]
  String.mk (pieces.flatten.dropWhile fun c => c = '_')

mutual

/-- Source `camel_to_snake`: recursively convert the keys of a JSON value
from camelCase to snake_case. -/
def camel_to_snake : Json → Json
  | .obj fs => .obj (camelFields fs)
  | .arr xs => .arr (camelItems xs)
  | j => j

/-- Field traversal of `camel_to_snake` (the dict comprehension). -/
def camelFields : JsonFields → JsonFields
  | .nil => .nil
  | .cons k v rest => .cons (convertKey k) (camelGuard v) (camelFields rest)

/-- The `isinstance(value, (dict, list))` guard of `camel_to_snake`:
recurse only into containers, keep other values as they are. -/
def camelGuard : Json → Json
  | .obj fs => .obj (camelFields fs)
  | .arr xs => .arr (camelItems xs)
  | v => v

/-- Item traversal of `camel_to_snake` (the list comprehension). -/
def camelItems : JsonList → JsonList
  | .nil => .nil
  | .cons v rest => .cons (camelGuard v) (camelItems rest)

end

mutual

/-- Spec-level restatement of the key-case conversion: map every JSON object
recursively (including objects nested in objects and in lists), converting
each key and leaving all non-container values unchanged. -/
def snakeSpecJson : Json → Json
  | .obj fs => .obj (snakeSpecFields fs)
  | .arr xs => .arr (snakeSpecItems xs)
  | j => j

/-- Spec-level field traversal: convert the key, recurse into the value. -/
def snakeSpecFields : JsonFields → JsonFields
  | .nil => .nil
  | .cons k v rest => .cons (convertKey k) (snakeSpecJson v) (snakeSpecFields rest)

/-- Spec-level item traversal: recurse into each item. -/
def snakeSpecItems : JsonList → JsonList
  | .nil => .nil
  | .cons v rest => .cons (snakeSpecJson v) (snakeSpecItems rest)

end

mutual

/-- The source traversal agrees with the spec-level one on every value. -/
def camelEqJson : (j : Json) → camel_to_snake j = snakeSpecJson j
  | .null => rfl
  | .bool _ => rfl
  | .num _ => rfl
  | .str _ => rfl
  | .obj fs => congrArg Json.obj (camelEqFields fs)
  | .arr xs => congrArg Json.arr (camelEqItems xs)

/-- The guarded recursion agrees with the spec-level unguarded one. -/
def camelEqGuard : (j : Json) → camelGuard j = snakeSpecJson j
  | .null => rfl
  | .bool _ => rfl
  | .num _ => rfl
  | .str _ => rfl
  | .obj fs => congrArg Json.obj (camelEqFields fs)
  | .arr xs => congrArg Json.arr (camelEqItems xs)

/-- Field traversals agree. -/
def camelEqFields : (fs : JsonFields) → camelFields fs = snakeSpecFields fs
  | .nil => rfl
  | .cons k v rest => by
      rw [camelFields, snakeSpecFields, camelEqGuard v, camelEqFields rest]

/-- Item traversals agree. -/
def camelEqItems : (xs : JsonList) → camelItems xs = snakeSpecItems xs
  | .nil => rfl
  | .cons v rest => by
      rw [camelItems, snakeSpecItems, camelEqGuard v, camelEqItems rest]

end

/-- Python `==` between a JSON value and a string literal. -/
def pyEqStr (v : Json) (s : String) : Bool :=
  match v with
  | .str s2 => decide (s2 = s)
  | _ => false

/-- Loop body of `count_active_users`: iterate the users, counting those with
truthy `isActive` and `username` different from `"hass"`; subscripting a
non-object user or a missing key raises.  Iterating a non-list (a Python
dict or string would iterate keys/characters) is modelled as an error. -/
def countActiveLoop : JsonList → ℤ → Except PyError ℤ
  | .nil, count => .ok count
  | .cons u rest, count =>
    match u with
    | .obj ufs =>
      match lookupField ufs "isActive" with
      | none => .error (.keyError "isActive")
      | some active =>
        if pyTruthy active then
          match lookupField ufs "username" with
          | none => .error (.keyError "username")
          | some un =>
            if pyEqStr un "hass" then countActiveLoop rest count
            else countActiveLoop rest (count + 1)
        else countActiveLoop rest count
    | _ => .error (.typeError "user is not a dict")

/-- Source `count_active_users`: count the active users, excluding the
`"hass"` user. -/
def count_active_users (data : JsonFields) : Except PyError ℤ :=
  match lookupField data "users" with
  | none => .error (.keyError "users")
  | some (.arr users) => countActiveLoop users 0
  | some _ => .error (.typeError "users is not a list")

/-- Loop body of `clean_user_attributes`: set `user["token"]` on each user. -/
def redactTokens : JsonList → Except PyError JsonList
  | .nil => .ok .nil
  | .cons u rest =>
    match u with
    | .obj ufs =>
      match redactTokens rest with
      | .error e => .error e
      | .ok rest2 => .ok (.cons (.obj (setField ufs "token" (.str "<redacted>"))) rest2)
    | _ => .error (.typeError "user is not a dict")

/-- Source `clean_user_attributes`: replace each user's token in place and
return the whole payload. -/
def clean_user_attributes (data : JsonFields) : Except PyError JsonFields :=
  match lookupField data "users" with
  | none => .error (.keyError "users")
  | some (.arr users) =>
    match redactTokens users with
    | .error e => .error e
    | .ok users2 => .ok (setField data "users" (.arr users2))
  | some _ => .error (.typeError "users is not a list")

/-- Source `count_open_sessions`: `len(data["openSessions"])`. -/
def count_open_sessions (data : JsonFields) : Except PyError ℤ :=
  match lookupField data "openSessions" with
  | none => .error (.keyError "openSessions")
  | some (.arr xs) => .ok (xs.length : ℤ)
  | some (.obj fs) => .ok (fs.length : ℤ)
  | some (.str s) => .ok (s.length : ℤ)
  | some _ => .error (.typeError "object has no len")

/-- Source `count_libraries`: `len(data["libraries"])`. -/
def count_libraries (data : JsonFields) : Except PyError ℤ :=
  match lookupField data "libraries" with
  | none => .error (.keyError "libraries")
  | some (.arr xs) => .ok (xs.length : ℤ)
  | some (.obj fs) => .ok (fs.length : ℤ)
  | some (.str s) => .ok (s.length : ℤ)
  | some _ => .error (.typeError "object has no len")

/-- Loop body of `extract_library_details`: for each library dict, when its
`id` is truthy record `mediaType` and `provider` under that id (ids are
modelled as strings, the only case occurring in the API). -/
def extractDetailsLoop : JsonList → JsonFields → Except PyError JsonFields
  | .nil, details => .ok details
  | .cons lib rest, details =>
    match lib with
    | .obj lfs =>
      let libraryId := (lookupField lfs "id").getD .null
      if pyTruthy libraryId then
        match libraryId with
        | .str s =>
          extractDetailsLoop rest (setField details s (.obj
            (.cons "mediaType" ((lookupField lfs "mediaType").getD .null)
              (.cons "provider" ((lookupField lfs "provider").getD .null) .nil))))
        | _ => .error (.typeError "non-string library id key")
      else extractDetailsLoop rest details
    | _ => .error .attributeError

/-- Source `extract_library_details`: per-library media type and provider,
keyed by library id; absent `libraries` defaults to the empty list. -/
def extract_library_details (data : JsonFields) : Except PyError JsonFields :=
  match (lookupField data "libraries").getD (.arr .nil) with
  | .arr libs => extractDetailsLoop libs .nil
  | _ => .error (.typeError "libraries is not iterable")

/-- Source `get_library_stats`: delegates to `extract_library_details`. -/
def get_library_stats (data : JsonFields) : Except PyError JsonFields :=
  extract_library_details data

/-- Source `do_nothing`: return the input unchanged. -/
def do_nothing (data : JsonFields) : Except PyError JsonFields := .ok data

/-- Source `extract_server_version`: `data["serverSettings"]["version"]`,
with `KeyError` caught and turned into `None`; subscripting a non-dict
raises `TypeError`, which is not caught. -/
def extract_server_version (data : JsonFields) : Except PyError Json :=
  match lookupField data "serverSettings" with
  | none => .ok .null
  | some (.obj sfs) =>
    match lookupField sfs "version" with
    | none => .ok .null
    | some v => .ok v
  | some _ => .error (.typeError "serverSettings is not subscriptable")

/-- Source dataclass `LibraryFolder`. -/
structure LibraryFolder : Type where
  id : String
  full_path : Option String
  library_id : String
  added_at : Option ℤ

/-- Source dataclass `LibrarySettings`. -/
structure LibrarySettings : Type where
  cover_aspect_ratio : Option ℤ
  disable_watcher : Option Bool
  auto_scan_cron_expression : Option String
  skip_matching_media_with_asin : Option Bool
  skip_matching_media_with_isbn : Option Bool
  audiobooks_only : Option Bool
  epubs_allow_scripted_content : Option Bool
  hide_single_book_series : Option Bool
  only_show_later_books_in_continue_series : Option Bool
  metadata_precedence : Option (List String)
  mark_as_finished_percent_complete : Option ℤ
  mark_as_finished_time_remaining : Option ℤ

/-- Source dataclass `Library`. -/
structure Library : Type where
  id : String
  name : String
  folders : Option (List LibraryFolder)
  display_order : Option ℤ
  icon : Option String
  media_type : Option String
  provider : Option String
  settings : Option LibrarySettings
  last_scan : Option ℤ
  last_scan_version : Option String
  created_at : Option ℤ
  last_update : Option ℤ

/-- Dacite-style required `str` field: present with a string value. -/
def reqStr (fs : JsonFields) (k : String) : Except PyError String :=
  match lookupField fs k with
  | some (.str s) => .ok s
  | some _ => .error (.dataError k)
  | none => .error (.dataError k)

/-- Dacite-style `str | None` field: absent or null gives `none`. -/
def optStr (fs : JsonFields) (k : String) : Except PyError (Option String) :=
  match lookupField fs k with
  | none => .ok none
  | some .null => .ok none
  | some (.str s) => .ok (some s)
  | some _ => .error (.dataError k)

/-- Dacite-style `int | None` field.  A JSON integer is a rational with
denominator 1; a Python bool would pass an `isinstance(int)` check, so it is
accepted as 0 or 1; a float-valued JSON number is conflated with the
equal integer by the rational model. -/
def optInt (fs : JsonFields) (k : String) : Except PyError (Option ℤ) :=
  match lookupField fs k with
  | none => .ok none
  | some .null => .ok none
  | some (.num q) => if q.den = 1 then .ok (some q.num) else .error (.dataError k)
  | some (.bool b) => .ok (some (if b then 1 else 0))
  | some _ => .error (.dataError k)

/-- Dacite-style `bool | None` field. -/
def optBool (fs : JsonFields) (k : String) : Except PyError (Option Bool) :=
  match lookupField fs k with
  | none => .ok none
  | some .null => .ok none
  | some (.bool b) => .ok (some b)
  | some _ => .error (.dataError k)

/-- Collect a JSON array of strings. -/
def strListOf : JsonList → Except PyError (List String)
  | .nil => .ok []
  | .cons (.str s) rest =>
    match strListOf rest with
    | .error e => .error e
    | .ok ss => .ok (s :: ss)
  | .cons _ _ => .error (.dataError "metadata_precedence")

/-- Dacite-style `list[str] | None` field. -/
def optStrList (fs : JsonFields) (k : String) : Except PyError (Option (List String)) :=
  match lookupField fs k with
  | none => .ok none
  | some .null => .ok none
  | some (.arr xs) =>
    match strListOf xs with
    | .error e => .error e
    | .ok ss => .ok (some ss)
  | some _ => .error (.dataError k)

/-- Dacite construction of a `LibraryFolder` from a (snake_cased) dict. -/
def parseFolder (j : Json) : Except PyError LibraryFolder :=
  match j with
  | .obj fs => do
    let id ← reqStr fs "id"
    let full_path ← optStr fs "full_path"
    let library_id ← reqStr fs "library_id"
    let added_at ← optInt fs "added_at"
    .ok { id, full_path, library_id, added_at }
  | _ => .error (.dataError "folder")

/-- Collect a JSON array of folders. -/
def folderListOf : JsonList → Except PyError (List LibraryFolder)
  | .nil => .ok []
  | .cons j rest => do
    let f ← parseFolder j
    let fsR ← folderListOf rest
    .ok (f :: fsR)

/-- Dacite-style `list[LibraryFolder] | None` field. -/
def optFolderList (fs : JsonFields) (k : String) :
    Except PyError (Option (List LibraryFolder)) :=
  match lookupField fs k with
  | none => .ok none
  | some .null => .ok none
  | some (.arr xs) =>
    match folderListOf xs with
    | .error e => .error e
    | .ok fl => .ok (some fl)
  | some _ => .error (.dataError k)

/-- Dacite construction of `LibrarySettings` from a (snake_cased) dict. -/
def parseSettings (j : Json) : Except PyError LibrarySettings :=
  match j with
  | .obj fs => do
    let cover_aspect_ratio ← optInt fs "cover_aspect_ratio"
    let disable_watcher ← optBool fs "disable_watcher"
    let auto_scan_cron_expression ← optStr fs "auto_scan_cron_expression"
    let skip_matching_media_with_asin ← optBool fs "skip_matching_media_with_asin"
    let skip_matching_media_with_isbn ← optBool fs "skip_matching_media_with_isbn"
    let audiobooks_only ← optBool fs "audiobooks_only"
    let epubs_allow_scripted_content ← optBool fs "epubs_allow_scripted_content"
    let hide_single_book_series ← optBool fs "hide_single_book_series"
    let only_show_later_books_in_continue_series ←
      optBool fs "only_show_later_books_in_continue_series"
    let metadata_precedence ← optStrList fs "metadata_precedence"
    let mark_as_finished_percent_complete ← optInt fs "mark_as_finished_percent_complete"
    let mark_as_finished_time_remaining ← optInt fs "mark_as_finished_time_remaining"
    .ok { cover_aspect_ratio, disable_watcher, auto_scan_cron_expression,
          skip_matching_media_with_asin, skip_matching_media_with_isbn,
          audiobooks_only, epubs_allow_scripted_content, hide_single_book_series,
          only_show_later_books_in_continue_series, metadata_precedence,
          mark_as_finished_percent_complete, mark_as_finished_time_remaining }
  | _ => .error (.dataError "settings")

/-- Dacite-style `LibrarySettings | None` field. -/
def optSettings (fs : JsonFields) (k : String) :
    Except PyError (Option LibrarySettings) :=
  match lookupField fs k with
  | none => .ok none
  | some .null => .ok none
  | some j =>
    match parseSettings j with
    | .error e => .error e
    | .ok s => .ok (some s)

/-- Dacite `from_dict(data_class=Library, ...)` on a (snake_cased) dict. -/
def fromDictLibrary (fs : JsonFields) : Except PyError Library := do
  let id ← reqStr fs "id"
  let name ← reqStr fs "name"
  let folders ← optFolderList fs "folders"
  let display_order ← optInt fs "display_order"
  let icon ← optStr fs "icon"
  let media_type ← optStr fs "media_type"
  let provider ← optStr fs "provider"
  let settings ← optSettings fs "settings"
  let last_scan ← optInt fs "last_scan"
  let last_scan_version ← optStr fs "last_scan_version"
  let created_at ← optInt fs "created_at"
  let last_update ← optInt fs "last_update"
  .ok { id, name, folders, display_order, icon, media_type, provider,
        settings, last_scan, last_scan_version, created_at, last_update }

/-- Outcome of one HTTP GET: a status with a JSON body, or a transport
error (`aiohttp.ClientError`). -/
inductive FetchResult : Type where
  | ok : ℕ → Json → FetchResult
  | clientError : String → FetchResult

/-- One discovered library entry: `dict(camel_to_snake(lib))` followed by
`from_dict`; a non-dict entry would fail the `dict(...)` conversion. -/
def parseEntry (lib : Json) : Except PyError Library :=
  match camel_to_snake lib with
  | .obj fs => fromDictLibrary fs
  | _ => .error (.typeError "library entry is not a dict")

/-- Evaluate a Python list comprehension that can raise: stop at the first
error. -/
def mapExcept (f : α → Except PyError β) : List α → Except PyError (List β)
  | [] => .ok []
  | a :: rest =>
    match f a with
    | .error e => .error e
    | .ok b =>
      match mapExcept f rest with
      | .error e => .error e
      | .ok bs => .ok (b :: bs)

/-- The 200 branch of `get_libraries`: take the body's `libraries` list
(default empty) and convert it entry by entry. -/
def parseLibrariesResponse (body : Json) : Except PyError (List Library) :=
  match body with
  | .obj fs =>
    match (lookupField fs "libraries").getD (.arr .nil) with
    | .arr entries => mapExcept parseEntry entries.toList
    | _ => .error (.typeError "libraries is not iterable")
  | _ => .error .attributeError

/-- Source `AudiobookshelfDataUpdateCoordinator.get_libraries`, as a function
of the response to `GET {url}/api/libraries`: non-200 statuses and transport
errors yield an empty list; a 200 response has its `libraries` list (default
empty) converted entry by entry. -/
def get_libraries (resp : FetchResult) : Except PyError (List Library) :=
  match resp with
  | .clientError _ => .ok []
  | .ok status body =>
    if status = 200 then parseLibrariesResponse body else .ok []

/-- A sensor descriptor: one entry of the module-level `sensors` dict. -/
structure SensorDescriptor : Type where
  endpoint : String
  name : String
  uniqueId : Option String
  dataFunction : JsonFields → Except PyError Json
  attributesFunction : JsonFields → Except PyError JsonFields
  unit : String

/-- The sensor registry: a Python dict from sensor key to descriptor. -/
abbrev Registry := List (String × SensorDescriptor)

/-- Python dict lookup on a string-keyed dict. -/
def dictGet : List (String × α) → String → Option α
  | [], _ => none
  | (k', v) :: rest, k => if k' = k then some v else dictGet rest k

/-- Python dict assignment `d[k] = v`: overwrite in place, else append. -/
def dictInsert : List (String × α) → String → α → List (String × α)
  | [], k, v => [(k, v)]
  | (k', v') :: rest, k, v =>
    if k' = k then (k', v) :: rest else (k', v') :: dictInsert rest k v

/-- The keys of a Python dict, in order. -/
def dictKeys (d : List (String × α)) : List String := d.map Prod.fst

/-- Adapter: wrap an integer-valued data function as a JSON-valued one. -/
def intData (f : JsonFields → Except PyError ℤ) (fs : JsonFields) :
    Except PyError Json :=
  match f fs with
  | .error e => .error e
  | .ok n => .ok (.num (n : ℚ))

/-- The fixed `sensors` dict of the source module, before any library
discovery. -/
def sensors : Registry :=
  [ ("users",
     { endpoint := "api/users", name := "Audiobookshelf Users", uniqueId := none,
       dataFunction := intData count_active_users,
       attributesFunction := clean_user_attributes, unit := "users" }),
    ("sessions",
     { endpoint := "api/users/online", name := "Audiobookshelf Open Sessions",
       uniqueId := none, dataFunction := intData count_open_sessions,
       attributesFunction := do_nothing, unit := "sessions" }),
    ("libraries",
     { endpoint := "api/libraries", name := "Audiobookshelf Libraries",
       uniqueId := none, dataFunction := intData count_libraries,
       attributesFunction := get_library_stats, unit := "libraries" }),
    ("server_version",
     { endpoint := "api/authorize", name := "Audiobookshelf Server Version",
       uniqueId := none, dataFunction := extract_server_version,
       attributesFunction := do_nothing, unit := "version" }) ]

/-- Interpret a JSON value as a Python number-or-None argument: `null` maps
to `None`, a number to itself (a non-numeric value would raise a `TypeError`
inside the arithmetic, a case never exercised here). -/
def jsonNumOpt : Json → Option ℚ
  | .num q => some q
  | _ => none

/-- Render an optional number as the sensor state value. -/
def optNumJson : Option ℚ → Json
  | none => .null
  | some q => .num q

/-- The `data_function` lambda of a library size sensor:
`get_total_size(data.get("totalSize"))`. -/
def librarySizeData (fs : JsonFields) : Except PyError Json :=
  .ok (optNumJson (get_total_size (jsonNumOpt ((lookupField fs "totalSize").getD .null))))

/-- The `data_function` lambda of a library items sensor:
`data.get("totalItems")`. -/
def libraryItemsData (fs : JsonFields) : Except PyError Json :=
  .ok ((lookupField fs "totalItems").getD .null)

/-- The `data_function` lambda of a library duration sensor:
`get_total_duration(data.get("totalDuration"))`. -/
def libraryDurationData (fs : JsonFields) : Except PyError Json :=
  .ok (optNumJson (get_total_duration (jsonNumOpt ((lookupField fs "totalDuration").getD .null))))

/-- The stats endpoint of a library. -/
def statsEndpoint (libraryId : String) : String :=
  "api/libraries/" ++ libraryId ++ "/stats"

/-- Registry key of a library's size sensor. -/
def sizeKey (libraryId : String) : String := "library_" ++ libraryId ++ "_size"

/-- Registry key of a library's items sensor. -/
def itemsKey (libraryId : String) : String := "library_" ++ libraryId ++ "_items"

/-- Registry key of a library's duration sensor. -/
def durationKey (libraryId : String) : String :=
  "library_" ++ libraryId ++ "_duration"

/-- The size descriptor registered for one library. -/
def sizeDescriptor (library : Library) : SensorDescriptor :=
  { endpoint := statsEndpoint library.id,
    name := "Audiobookshelf " ++ library.name ++ " Size",
    uniqueId := some (sizeKey library.id),
    dataFunction := librarySizeData, attributesFunction := do_nothing,
    unit := "GB" }

/-- The items descriptor registered for one library. -/
def itemsDescriptor (library : Library) : SensorDescriptor :=
  { endpoint := statsEndpoint library.id,
    name := "Audiobookshelf " ++ library.name ++ " Items",
    uniqueId := some (itemsKey library.id),
    dataFunction := libraryItemsData, attributesFunction := do_nothing,
    unit := "items" }

/-- The duration descriptor registered for one library. -/
def durationDescriptor (library : Library) : SensorDescriptor :=
  { endpoint := statsEndpoint library.id,
    name := "Audiobookshelf " ++ library.name ++ " Duration",
    uniqueId := some (durationKey library.id),
    dataFunction := libraryDurationData, attributesFunction := do_nothing,
    unit := "hours" }

/-- The `sensors.update({...})` performed for one library: three keyed
assignments, in source order. -/
def addLibrarySensors (registry : Registry) (library : Library) : Registry :=
  dictInsert
    (dictInsert
      (dictInsert registry (sizeKey library.id) (sizeDescriptor library))
      (itemsKey library.id) (itemsDescriptor library))
    (durationKey library.id) (durationDescriptor library)

/-- Source `generate_library_sensors`: extend the registry with three
descriptors per discovered library. -/
def generate_library_sensors (registry : Registry) (libraries : List Library) :
    Registry :=
  libraries.foldl addLibrarySensors registry

/-- The deduplicated endpoint set of a refresh cycle
(`{sensor["endpoint"] for sensor in sensors.values()}`). -/
def uniqueEndpoints (registry : Registry) : List String :=
  (registry.map fun kv => kv.2.endpoint).dedup

/-- Whether one GET succeeded (status 200, no transport error). -/
def fetchSucceeds : FetchResult → Bool
  | .ok status _ => decide (status = 200)
  | .clientError _ => false

/-- The body of a successful GET. -/
def fetchBody : FetchResult → Json
  | .ok _ body => body
  | .clientError _ => .null

/-- The fetch loop of `_async_update_data` over a list of endpoints, with the
accumulated `data` dict.  Returns the trace of endpoints actually fetched and
either the completed endpoint-to-JSON dict or the raised `UpdateFailed`
message; a non-200 status or a transport error aborts the loop at once. -/
def fetchLoop (net : String → FetchResult) :
    List String → List (String × Json) → List String × Except String (List (String × Json))
  | [], acc => ([], .ok acc)
  | ep :: rest, acc =>
    match net ep with
    | .ok status body =>
      if status = 200 then
        let r := fetchLoop net rest (acc ++ [(ep, body)])
        (ep :: r.1, r.2)
      else ([ep], .error ("Error fetching data for " ++ ep))
    | .clientError msg =>
      ([ep], .error ("Error fetching data for " ++ ep ++ ": " ++ msg))

/-- Source `_async_update_data`: fetch every unique endpoint of the registry
once and return the new endpoint-to-JSON dict, or fail the whole cycle. -/
def async_update_data (net : String → FetchResult) (registry : Registry) :
    Except String (List (String × Json)) :=
  (fetchLoop net (uniqueEndpoints registry) []).2

/-- The endpoints actually fetched (GETs issued) during one refresh cycle. -/
def fetchedEndpoints (net : String → FetchResult) (registry : Registry) :
    List String :=
  (fetchLoop net (uniqueEndpoints registry) []).1

/-- The mutable state of one `AudiobookshelfSensor` entity, together with the
descriptor pieces `async_update` reads. -/
structure SensorEntity : Type where
  endpoint : String
  state : Json
  attrs : JsonFields
  dataFunction : JsonFields → Except PyError Json
  attributesFunction : JsonFields → Except PyError JsonFields

/-- The body of `async_update` once a dict payload is at hand: merge the
processed attributes, then assign the freshly computed value unless it is
zero-or-None while the current state is neither. -/
def updateWithFields (e : SensorEntity) (fields : JsonFields) :
    Except PyError SensorEntity :=
  match e.attributesFunction fields with
  | .error err => .error err
  | .ok processed =>
    let attrs2 := fieldsUpdate e.attrs processed
    match e.dataFunction fields with
    | .error err => .error err
    | .ok newState =>
      if !isZeroOrNone newState || isZeroOrNone e.state then
        .ok { e with attrs := attrs2, state := newState }
      else
        .ok { e with attrs := attrs2 }

/-- Source `AudiobookshelfSensor.async_update`: a falsy coordinator dict is
skipped; the endpoint's payload defaults to the empty dict
(`data.get(self._endpoint, {})`) and is processed when it is a dict,
otherwise only a diagnostic is logged.  An exception raised by either
extraction function propagates (the partial in-place attribute mutation of
the failed Python call is not observable through the returned value and is
not modelled). -/
def async_update (e : SensorEntity) (data : Option (List (String × Json))) :
    Except PyError SensorEntity :=
  match data with
  | none => .ok e
  | some d =>
    if d.isEmpty then .ok e
    else
      match (dictGet d e.endpoint).getD (.obj .nil) with
      | .obj fields => updateWithFields e fields
      | _ => .ok e

/-- Source `AudiobookshelfBinarySensor.is_on`:
`self.coordinator.data.get("connectivity", "").get("success", "")`, with
`AttributeError` (`.get` on a non-dict, including the `""` default and a
`None` coordinator dict) and `KeyError` caught as `False`, and the result
required to be a `bool` that is `True`. -/
def is_on (data : Option Json) : Bool :=
  match data with
  | none => false
  | some d =>
    match d with
    | .obj fs =>
      match (lookupField fs "connectivity").getD (.str "") with
      | .obj fs2 =>
        match (lookupField fs2 "success").getD (.str "") with
        | .bool b => b
        | _ => false
      | _ => false
    | _ => false

/-- Structural induction for `JsonList` alone (the mutual recursor is
inconvenient for the tactic framework). -/
def jsonListInd {motive : JsonList → Prop} (h0 : motive .nil)
    (h1 : ∀ u rest, motive rest → motive (.cons u rest)) : ∀ us, motive us
  | .nil => h0
  | .cons u rest => h1 u rest (jsonListInd h0 h1 rest)

/-- A user record as assumed by the claim: a JSON object with a boolean
`isActive` field and a string `username` field. -/
def wellFormedUser (u : Json) : Bool :=
  match u with
  | .obj ufs =>
    (match lookupField ufs "isActive" with
     | some (.bool _) => true
     | _ => false) &&
    (match lookupField ufs "username" with
     | some (.str _) => true
     | _ => false)
  | _ => false

/-- Spec-level counting predicate: `isActive` is `true` and `username` is
not `"hass"`. -/
def isCountedUser (u : Json) : Bool :=
  match u with
  | .obj ufs =>
    (match lookupField ufs "isActive" with
     | some (.bool true) => true
     | _ => false) &&
    (match lookupField ufs "username" with
     | some (.str s) => decide (s ≠ "hass")
     | _ => false)
  | _ => false

/-- Shape of a well-formed user record. -/
theorem wf_user_shape (u : Json) (hu : wellFormedUser u = true) :
    ∃ ufs b s, u = Json.obj ufs ∧ lookupField ufs "isActive" = some (.bool b) ∧
      lookupField ufs "username" = some (.str s) := by
  cases u with
  | obj ufs =>
    have h2 : ((match lookupField ufs "isActive" with
       | some (.bool _) => true
       | _ => false) &&
      (match lookupField ufs "username" with
       | some (.str _) => true
       | _ => false)) = true := hu
    rw [Bool.and_eq_true] at h2
    obtain ⟨hl, hr⟩ := h2
    cases ha : lookupField ufs "isActive" with
    | none => rw [ha] at hl; exact Bool.noConfusion hl
    | some av =>
      cases av with
      | bool b =>
        cases hn : lookupField ufs "username" with
        | none => rw [hn] at hr; exact Bool.noConfusion hr
        | some nv =>
          cases nv with
          | str s => exact ⟨ufs, b, s, rfl, ha, hn⟩
          | null => rw [hn] at hr; exact Bool.noConfusion hr
          | bool c => rw [hn] at hr; exact Bool.noConfusion hr
          | num q => rw [hn] at hr; exact Bool.noConfusion hr
          | arr xs => rw [hn] at hr; exact Bool.noConfusion hr
          | obj fs2 => rw [hn] at hr; exact Bool.noConfusion hr
      | null => rw [ha] at hl; exact Bool.noConfusion hl
      | num q => rw [ha] at hl; exact Bool.noConfusion hl
      | str t => rw [ha] at hl; exact Bool.noConfusion hl
      | arr xs => rw [ha] at hl; exact Bool.noConfusion hl
      | obj fs2 => rw [ha] at hl; exact Bool.noConfusion hl
  | null => exact Bool.noConfusion hu
  | bool b => exact Bool.noConfusion hu
  | num q => exact Bool.noConfusion hu
  | str s => exact Bool.noConfusion hu
  | arr xs => exact Bool.noConfusion hu

/-- The counting loop counts exactly the users selected by
`isCountedUser`, starting from any accumulator. -/
theorem countLoop_spec (us : JsonList) :
    ∀ c : ℤ, us.toList.all wellFormedUser = true →
      countActiveLoop us c = .ok (c + (us.toList.countP isCountedUser : ℤ)) := by
  induction us using jsonListInd with
  | h0 => intro c _; simp [countActiveLoop, JsonList.toList]
  | h1 u rest ih =>
    intro c h
    rw [JsonList.toList, List.all_cons, Bool.and_eq_true] at h
    obtain ⟨hu, hrest⟩ := h
    obtain ⟨ufs, b, s, rfl, ha, hn⟩ := wf_user_shape u hu
    rw [countActiveLoop, ha]
    have hcnt : isCountedUser (Json.obj ufs)
        = (b && decide (s ≠ "hass")) := by
      show ((match lookupField ufs "isActive" with
         | some (.bool true) => true
         | _ => false) &&
        (match lookupField ufs "username" with
         | some (.str s) => decide (s ≠ "hass")
         | _ => false)) = _
      rw [ha, hn]
      cases b <;> rfl
    cases b with
    | false =>
      simp only [pyTruthy, Bool.false_eq_true, if_false]
      rw [ih c hrest, JsonList.toList, List.countP_cons, hcnt]
      simp
    | true =>
      simp only [pyTruthy, if_true, hn]
      by_cases hs : s = "hass"
      · have : pyEqStr (Json.str s) "hass" = true := by simp [pyEqStr, hs]
        rw [this, if_pos rfl, ih c hrest, JsonList.toList, List.countP_cons, hcnt]
        simp [hs]
      · have : pyEqStr (Json.str s) "hass" = false := by simp [pyEqStr, hs]
        rw [this]
        simp only [Bool.false_eq_true, if_false]
        rw [ih (c + 1) hrest, JsonList.toList, List.countP_cons, hcnt]
        simp only [Except.ok.injEq, hs]
        push_cast
        simp [hs]
        ring

/-- C4: the key-case conversion function maps every JSON object
(recursively, including objects nested in objects and in lists) by
converting each key from camel-style to snake-style naming while leaving
all non-container values unchanged; in particular
`{"mediaType": "book", "nested": {"lastScan": 1}}` converts to
`{"media_type": "book", "nested": {"last_scan": 1}}`. -/
theorem camel_to_snake_recursive_conversion :
    (∀ j : Json, camel_to_snake j = snakeSpecJson j) ∧
    camel_to_snake (.obj (.cons "mediaType" (.str "book")
        (.cons "nested" (.obj (.cons "lastScan" (.num 1) .nil)) .nil)))
      = .obj (.cons "media_type" (.str "book")
        (.cons "nested" (.obj (.cons "last_scan" (.num 1) .nil)) .nil)) :=
  ⟨fun j => camelEqJson j, rfl⟩

/-- C9: for every non-null size in bytes, `get_total_size` is division by
`1024 ^ 3` followed by rounding to two decimal places (`3 * 1024 ^ 3` bytes
give `3.0` GB); for every non-null duration in seconds, `get_total_duration`
is division by 3600 followed by rounding to the nearest whole hour (7200
seconds give 2 hours); the item count is passed through unconverted. -/
theorem library_stat_conversion_functions :
    (∀ b : ℚ, get_total_size (some b) = some (pyRoundTo 2 (b / 1024 ^ 3))) ∧
    (∀ s : ℚ, get_total_duration (some s) = some ((pyRound (s / 3600) : ℚ))) ∧
    get_total_size (some (3 * 1024 ^ 3)) = some 3 ∧
    get_total_duration (some 7200) = some 2 ∧
    (∀ fs : JsonFields,
      libraryItemsData fs = .ok ((lookupField fs "totalItems").getD .null)) := by
  refine ⟨?_, ?_, ?_, ?_, fun _ => rfl⟩
  · intro b
    show some (pyRoundTo 2 (b / 1024 / 1024 / 1024)) = _
    rw [div_div, div_div]
    norm_num
  · intro s
    show some (pyRoundTo 0 (s / 60 / 60)) = _
    rw [div_div]
    norm_num [pyRoundTo]
  · show some (pyRoundTo 2 (3 * 1024 ^ 3 / 1024 / 1024 / 1024)) = _
    norm_num [pyRoundTo, pyRound, ratFloor]
  · show some (pyRoundTo 0 (7200 / 60 / 60)) = _
    norm_num [pyRoundTo, pyRound, ratFloor]

/-- C8: the connectivity binary sensor is on exactly when the coordinator
data has a `connectivity` object whose `success` field is the boolean
`true`; every missing-key or wrong-type access is caught and yields off (no
other error can arise from the modelled access path). -/
theorem connectivity_is_on_iff (data : Option Json) :
    is_on data = true ↔
      ∃ fs fs2, data = some (Json.obj fs) ∧
        lookupField fs "connectivity" = some (Json.obj fs2) ∧
        lookupField fs2 "success" = some (Json.bool true) := by
  cases data with
  | none => simp [is_on]
  | some d =>
    cases d with
    | obj fs =>
      simp only [is_on, Option.some.injEq]
      cases hc : lookupField fs "connectivity" with
      | none => simp [hc]
      | some v =>
        cases v with
        | obj fs2 =>
          simp only [Option.getD_some]
          cases hs : lookupField fs2 "success" with
          | none => simp [hc, hs]
          | some w =>
            cases w <;> simp [hc, hs]
        | null => simp [hc]
        | bool b => simp [hc]
        | num q => simp [hc]
        | str s => simp [hc]
        | arr xs => simp [hc]
    | null => simp [is_on]
    | bool b => simp [is_on]
    | num q => simp [is_on]
    | str s => simp [is_on]
    | arr xs => simp [is_on]

/-- C10: for every payload whose `users` field is a list of user records,
`count_active_users` returns the number of users whose `isActive` field is
`true` and whose `username` is not `"hass"`. -/
theorem count_active_users_excludes_hass (data : JsonFields) (users : JsonList)
    (hu : lookupField data "users" = some (.arr users))
    (hwf : users.toList.all wellFormedUser = true) :
    count_active_users data = .ok ((users.toList.countP isCountedUser : ℤ)) := by
  have h0 := countLoop_spec users 0 hwf
  rw [zero_add] at h0
  have h1 : count_active_users data = countActiveLoop users 0 := by
    rw [count_active_users.eq_def, hu]
  rw [h1, h0]

/-- Sample user list: an active regular user, the active service account
`hass`, and an inactive user. -/
def sampleUsers : JsonList :=
  .cons (.obj (.cons "isActive" (.bool true)
      (.cons "username" (.str "alice") (.cons "token" (.str "abc") .nil))))
    (.cons (.obj (.cons "isActive" (.bool true)
        (.cons "username" (.str "hass") .nil)))
      (.cons (.obj (.cons "isActive" (.bool false)
          (.cons "username" (.str "bob") .nil))) .nil))

/-- Sample `api/users` payload for the user count. -/
def sampleUsersPayload : JsonFields := .cons "users" (.arr sampleUsers) .nil

/-- Witness for C10: on the sample payload only the active non-`hass` user
is counted. -/
theorem count_active_users_excludes_hass_witness :
    count_active_users sampleUsersPayload = .ok 1 := by
  have h := count_active_users_excludes_hass sampleUsersPayload sampleUsers
    rfl (by decide)
  rw [h]
  rfl

/-- Whether a JSON value is an object (Python `isinstance(x, dict)`). -/
def Json.isObj : Json → Bool
  | .obj _ => true
  | _ => false

/-- When the cached payload of the entity's endpoint is a JSON object,
`async_update` processes it. -/
theorem async_update_found (e : SensorEntity) (d : List (String × Json))
    (fields : JsonFields) (hlook : dictGet d e.endpoint = some (.obj fields)) :
    async_update e (some d) = updateWithFields e fields := by
  cases d with
  | nil => exact Option.noConfusion hlook
  | cons hd tl =>
    show (if (hd :: tl).isEmpty then Except.ok e
      else match (dictGet (hd :: tl) e.endpoint).getD (.obj .nil) with
        | Json.obj fields => updateWithFields e fields
        | _ => Except.ok e) = _
    rw [hlook]
    rfl

/-- Explicit form of the payload processing when both extraction functions
succeed. -/
theorem updateWithFields_ok (e : SensorEntity) (fields attrsOut : JsonFields)
    (v : Json) (hattr : e.attributesFunction fields = .ok attrsOut)
    (hdata : e.dataFunction fields = .ok v) :
    updateWithFields e fields =
      if !isZeroOrNone v || isZeroOrNone e.state then
        .ok { e with attrs := fieldsUpdate e.attrs attrsOut, state := v }
      else .ok { e with attrs := fieldsUpdate e.attrs attrsOut } := by
  rw [updateWithFields.eq_def, hattr]
  show (match e.dataFunction fields with
    | Except.error err => Except.error err
    | Except.ok newState =>
      if !isZeroOrNone newState || isZeroOrNone e.state then
        Except.ok { e with attrs := fieldsUpdate e.attrs attrsOut, state := newState }
      else Except.ok { e with attrs := fieldsUpdate e.attrs attrsOut }) = _
  rw [hdata]

/-- C1: on a sensor update whose cached endpoint payload is a JSON object,
a newly computed value that is zero or null while the current state is
neither leaves the displayed state unchanged; in every other case the
displayed state becomes the newly computed value. -/
theorem sensor_zero_null_suppression (e : SensorEntity)
    (d : List (String × Json)) (fields attrsOut : JsonFields) (v : Json)
    (hlook : dictGet d e.endpoint = some (.obj fields))
    (hattr : e.attributesFunction fields = .ok attrsOut)
    (hdata : e.dataFunction fields = .ok v) :
    (isZeroOrNone v = true ∧ isZeroOrNone e.state = false →
      ∃ e2, async_update e (some d) = .ok e2 ∧ e2.state = e.state) ∧
    (isZeroOrNone v = false ∨ isZeroOrNone e.state = true →
      ∃ e2, async_update e (some d) = .ok e2 ∧ e2.state = v) := by
  rw [async_update_found e d fields hlook,
    updateWithFields_ok e fields attrsOut v hattr hdata]
  constructor
  · rintro ⟨hv, hst⟩
    rw [hv, hst]
    exact ⟨_, rfl, rfl⟩
  · intro hcase
    have hcond : (!isZeroOrNone v || isZeroOrNone e.state) = true := by
      rcases hcase with h | h
      · simp [h]
      · simp [h]
    rw [if_pos hcond]
    exact ⟨_, rfl, rfl⟩

/-- A library items sensor whose current state is 42. -/
def suppressionEntity : SensorEntity :=
  { endpoint := "api/libraries/lib1/stats", state := .num 42, attrs := .nil,
    dataFunction := libraryItemsData, attributesFunction := do_nothing }

/-- A stats payload whose computed item count is 0. -/
def suppressionCache : List (String × Json) :=
  [("api/libraries/lib1/stats", .obj (.cons "totalItems" (.num 0) .nil))]

/-- A library items sensor whose current state is null. -/
def nullStateEntity : SensorEntity :=
  { endpoint := "api/libraries/lib1/stats", state := .null, attrs := .nil,
    dataFunction := libraryItemsData, attributesFunction := do_nothing }

/-- A stats payload whose computed item count is 5. -/
def fiveItemsCache : List (String × Json) :=
  [("api/libraries/lib1/stats", .obj (.cons "totalItems" (.num 5) .nil))]

/-- Witness for C1: previous state 42 with new value 0 keeps 42; previous
state null with new value 5 becomes 5. -/
theorem sensor_zero_null_suppression_witness :
    (∃ e2, async_update suppressionEntity (some suppressionCache) = .ok e2 ∧
      e2.state = suppressionEntity.state) ∧
    (∃ e2, async_update nullStateEntity (some fiveItemsCache) = .ok e2 ∧
      e2.state = .num 5) := by
  constructor
  · exact (sensor_zero_null_suppression suppressionEntity suppressionCache
      (.cons "totalItems" (.num 0) .nil) (.cons "totalItems" (.num 0) .nil)
      (.num 0) rfl rfl rfl).1 ⟨rfl, rfl⟩
  · exact (sensor_zero_null_suppression nullStateEntity fiveItemsCache
      (.cons "totalItems" (.num 5) .nil) (.cons "totalItems" (.num 5) .nil)
      (.num 5) rfl rfl rfl).2 (Or.inr rfl)

/-- A library items sensor whose current state is 0, assigned an endpoint
the cache will not contain. -/
def missingEndpointEntity : SensorEntity :=
  { endpoint := "api/libraries/lib1/stats", state := .num 0, attrs := .nil,
    dataFunction := libraryItemsData, attributesFunction := do_nothing }

/-- A non-empty coordinator cache with no entry for the entity's endpoint. -/
def missingEndpointCache : List (String × Json) := [("api/users", .obj .nil)]

/-- Counterexample to C3 as stated: with no cache entry for the endpoint the
update is not a no-op — `data.get(endpoint, {})` yields an empty dict, which
is processed, and the displayed state changes from 0 to null. -/
theorem sensor_noop_claim_counterexample :
    async_update missingEndpointEntity (some missingEndpointCache)
      = .ok { missingEndpointEntity with state := Json.null } ∧
    missingEndpointEntity.state = Json.num 0 ∧ Json.null ≠ Json.num 0 :=
  ⟨rfl, rfl, fun h => Json.noConfusion h⟩

/-- C3 as amended: if the cached payload for the endpoint is present but not
a JSON object the update is a no-op (state and attributes unchanged); if the
cache has no entry for the endpoint, the entity processes an empty JSON
object instead, which can change the state. -/
theorem sensor_payload_noop_amended (e : SensorEntity)
    (d : List (String × Json)) :
    (∀ v, dictGet d e.endpoint = some v → v.isObj = false →
      async_update e (some d) = .ok e) ∧
    (dictGet d e.endpoint = none → d.isEmpty = false →
      async_update e (some d) = updateWithFields e .nil) := by
  constructor
  · intro v hv hobj
    cases d with
    | nil => exact Option.noConfusion hv
    | cons hd tl =>
      show (if (hd :: tl).isEmpty then Except.ok e
        else match (dictGet (hd :: tl) e.endpoint).getD (.obj .nil) with
          | Json.obj fields => updateWithFields e fields
          | _ => Except.ok e) = _
      rw [hv]
      cases v with
      | obj fs => exact Bool.noConfusion hobj
      | null => rfl
      | bool b => rfl
      | num q => rfl
      | str s => rfl
      | arr xs => rfl
  · intro hnone hne
    cases d with
    | nil => exact Bool.noConfusion hne
    | cons hd tl =>
      show (if (hd :: tl).isEmpty then Except.ok e
        else match (dictGet (hd :: tl) e.endpoint).getD (.obj .nil) with
          | Json.obj fields => updateWithFields e fields
          | _ => Except.ok e) = _
      rw [hnone]
      rfl

/-- A users sensor whose cached payload is a string rather than an object. -/
def notObjectEntity : SensorEntity :=
  { endpoint := "api/users", state := .num 7, attrs := .nil,
    dataFunction := intData count_active_users,
    attributesFunction := clean_user_attributes }

/-- A cache whose `api/users` payload is not a JSON object. -/
def notObjectCache : List (String × Json) := [("api/users", .str "oops")]

/-- Witness for the amended C3: a non-object payload gives a strict no-op,
and a missing cache entry processes the empty object. -/
theorem sensor_payload_noop_amended_witness :
    async_update notObjectEntity (some notObjectCache) = .ok notObjectEntity ∧
    async_update missingEndpointEntity (some missingEndpointCache)
      = updateWithFields missingEndpointEntity .nil := by
  constructor
  · exact (sensor_payload_noop_amended notObjectEntity notObjectCache).1
      (.str "oops") rfl rfl
  · exact (sensor_payload_noop_amended missingEndpointEntity
      missingEndpointCache).2 rfl rfl

/-- When every endpoint fetch succeeds, the fetch loop visits the whole list
in order and accumulates one entry per endpoint. -/
theorem fetchLoop_all_ok (net : String → FetchResult) :
    ∀ (l : List String) (acc : List (String × Json)),
      (∀ ep ∈ l, fetchSucceeds (net ep) = true) →
      fetchLoop net l acc
        = (l, .ok (acc ++ l.map fun ep => (ep, fetchBody (net ep)))) := by
  intro l
  induction l with
  | nil => intro acc _; simp [fetchLoop]
  | cons ep rest ih =>
    intro acc h
    have hep := h ep (List.mem_cons_self ep rest)
    cases hnet : net ep with
    | ok status body =>
      rw [hnet] at hep
      have hst : status = 200 := by simpa [fetchSucceeds] using hep
      subst hst
      rw [fetchLoop, hnet]
      simp only [if_pos rfl]
      rw [ih (acc ++ [(ep, body)]) fun e2 he => h e2 (List.mem_cons_of_mem _ he)]
      simp [fetchBody, hnet]
    | clientError msg =>
      rw [hnet] at hep
      exact Bool.noConfusion hep

/-- When some endpoint fetch fails, the fetch loop raises. -/
theorem fetchLoop_fail (net : String → FetchResult) :
    ∀ (l : List String) (acc : List (String × Json)),
      (∃ ep ∈ l, fetchSucceeds (net ep) = false) →
      ∃ msg, (fetchLoop net l acc).2 = .error msg := by
  intro l
  induction l with
  | nil =>
    rintro acc ⟨ep, hmem, _⟩
    exact absurd hmem (List.not_mem_nil ep)
  | cons ep rest ih =>
    rintro acc ⟨e2, hmem, hfail⟩
    cases hnet : net ep with
    | ok status body =>
      by_cases hst : status = 200
      · subst hst
        rcases List.mem_cons.mp hmem with rfl | hmem2
        · rw [hnet] at hfail
          simp [fetchSucceeds] at hfail
        · obtain ⟨msg, hmsg⟩ := ih (acc ++ [(ep, body)]) ⟨e2, hmem2, hfail⟩
          exact ⟨msg, by rw [fetchLoop, hnet]; simp only [if_pos rfl]; exact hmsg⟩
      · refine ⟨"Error fetching data for " ++ ep, ?_⟩
        rw [fetchLoop, hnet]
        show (if status = 200 then
            let r := fetchLoop net rest (acc ++ [(ep, body)]); (ep :: r.1, r.2)
          else ([ep], Except.error ("Error fetching data for " ++ ep))).2 = _
        rw [if_neg hst]
    | clientError msg =>
      exact ⟨_, by rw [fetchLoop, hnet]⟩

/-- C2: if any endpoint of the cycle fetches with a non-200 status or a
transport error, the coordinator update raises and returns no partial
mapping; when every fetch succeeds it returns the complete
endpoint-to-JSON mapping, one entry per unique endpoint. -/
theorem coordinator_cycle_all_or_nothing (net : String → FetchResult)
    (registry : Registry) :
    ((∃ ep ∈ uniqueEndpoints registry, fetchSucceeds (net ep) = false) →
      ∃ msg, async_update_data net registry = .error msg) ∧
    ((∀ ep ∈ uniqueEndpoints registry, fetchSucceeds (net ep) = true) →
      async_update_data net registry
        = .ok ((uniqueEndpoints registry).map fun ep => (ep, fetchBody (net ep)))) := by
  constructor
  · intro hex
    exact fetchLoop_fail net (uniqueEndpoints registry) [] hex
  · intro hall
    unfold async_update_data
    rw [fetchLoop_all_ok net (uniqueEndpoints registry) [] hall]
    simp

/-- A network where every endpoint answers 200. -/
def netAll200 : String → FetchResult := fun _ => .ok 200 (.obj .nil)

/-- A network where the users endpoint answers 500 and everything else 200. -/
def netUsersDown : String → FetchResult := fun ep =>
  if ep = "api/users" then .ok 500 .null else .ok 200 (.obj .nil)

/-- Witness for C2: one failing endpoint fails the whole cycle of the fixed
registry; an all-200 network yields the complete mapping. -/
theorem coordinator_cycle_all_or_nothing_witness :
    (∃ msg, async_update_data netUsersDown sensors = .error msg) ∧
    async_update_data netAll200 sensors
      = .ok ((uniqueEndpoints sensors).map fun ep => (ep, fetchBody (netAll200 ep))) := by
  constructor
  · exact (coordinator_cycle_all_or_nothing netUsersDown sensors).1
      ⟨"api/users", by decide, rfl⟩
  · exact (coordinator_cycle_all_or_nothing netAll200 sensors).2 fun ep _ => rfl

/-- C6: on a refresh cycle whose fetches succeed, the endpoints fetched are
exactly the deduplicated endpoint paths of the registered descriptors, each
fetched once, regardless of how many descriptors reference each path. -/
theorem coordinator_endpoint_dedup (net : String → FetchResult)
    (registry : Registry)
    (h : ∀ ep ∈ uniqueEndpoints registry, fetchSucceeds (net ep) = true) :
    fetchedEndpoints net registry = uniqueEndpoints registry ∧
    (fetchedEndpoints net registry).Nodup ∧
    (∀ ep, ep ∈ fetchedEndpoints net registry ↔
      ∃ kv ∈ registry, kv.2.endpoint = ep) := by
  have htr : fetchedEndpoints net registry = uniqueEndpoints registry := by
    unfold fetchedEndpoints
    rw [fetchLoop_all_ok net (uniqueEndpoints registry) [] h]
  refine ⟨htr, ?_, ?_⟩
  · rw [htr]
    exact List.nodup_dedup _
  · intro ep
    rw [htr]
    unfold uniqueEndpoints
    rw [List.mem_dedup, List.mem_map]

/-- A library discovered as `{id: "lib1", name: "Books"}`. -/
def sampleLibrary : Library :=
  { id := "lib1", name := "Books", folders := none, display_order := none,
    icon := none, media_type := some "book", provider := none, settings := none,
    last_scan := none, last_scan_version := none, created_at := none,
    last_update := none }

/-- The registry after discovering `sampleLibrary`: four fixed descriptors
plus three library descriptors sharing one stats endpoint. -/
def sampleRegistry : Registry := generate_library_sensors sensors [sampleLibrary]

/-- Witness for C6: seven descriptors produce exactly five distinct fetched
endpoints, with no endpoint fetched twice. -/
theorem coordinator_endpoint_dedup_witness :
    fetchedEndpoints netAll200 sampleRegistry = uniqueEndpoints sampleRegistry ∧
    (fetchedEndpoints netAll200 sampleRegistry).Nodup ∧
    sampleRegistry.length = 7 ∧ (uniqueEndpoints sampleRegistry).length = 5 := by
  obtain ⟨h1, h2, h3⟩ := coordinator_endpoint_dedup netAll200 sampleRegistry
    fun ep _ => rfl
  exact ⟨h1, h2, by decide, by decide⟩

/-- A comprehension over entries that all convert successfully returns one
result per entry. -/
theorem mapExcept_total {α β : Type} (f : α → Except PyError β) :
    ∀ l : List α, (∀ a ∈ l, ∃ b, f a = .ok b) →
      ∃ bs, mapExcept f l = .ok bs ∧ bs.length = l.length := by
  intro l
  induction l with
  | nil => intro _; exact ⟨[], rfl, rfl⟩
  | cons a rest ih =>
    intro h
    obtain ⟨b, hb⟩ := h a (List.mem_cons_self a rest)
    obtain ⟨bs, hbs, hlen⟩ := ih fun x hx => h x (List.mem_cons_of_mem _ hx)
    refine ⟨b :: bs, ?_, by simp [hlen]⟩
    rw [mapExcept, hb, hbs]

/-- C7: library discovery never raises on failure — every non-200 status
and every transport error yields the empty list; a 200 response whose
entries all convert yields one `Library` record per entry. -/
theorem get_libraries_error_handling :
    (∀ msg, get_libraries (.clientError msg) = .ok []) ∧
    (∀ status body, status ≠ 200 → get_libraries (.ok status body) = .ok []) ∧
    (∀ fs entries, lookupField fs "libraries" = some (.arr entries) →
      (∀ entry ∈ entries.toList, ∃ L, parseEntry entry = .ok L) →
      ∃ libs, get_libraries (.ok 200 (.obj fs)) = .ok libs ∧
        libs.length = entries.toList.length) := by
  refine ⟨fun msg => rfl, ?_, ?_⟩
  · intro status body hne
    show (if status = 200 then parseLibrariesResponse body else .ok []) = .ok []
    rw [if_neg hne]
  · intro fs entries hlib hall
    obtain ⟨libs, hm, hlen⟩ := mapExcept_total parseEntry entries.toList hall
    refine ⟨libs, ?_, hlen⟩
    show (if 200 = 200 then parseLibrariesResponse (.obj fs) else .ok []) = _
    rw [if_pos rfl]
    show (match (lookupField fs "libraries").getD (.arr .nil) with
      | Json.arr entries => mapExcept parseEntry entries.toList
      | _ => Except.error (PyError.typeError "libraries is not iterable")) = _
    rw [hlib]
    exact hm

/-- A raw camelCase library entry as the API returns it. -/
def sampleEntry : Json :=
  .obj (.cons "id" (.str "lib1")
    (.cons "name" (.str "Books") (.cons "mediaType" (.str "book") .nil)))

/-- A 200 response body holding one library entry. -/
def libsResponseBody : JsonFields :=
  .cons "libraries" (.arr (.cons sampleEntry .nil)) .nil

/-- Witness for C7: a transport error and a 404 give the empty list; a 200
body with one well-formed entry gives exactly one library. -/
theorem get_libraries_error_handling_witness :
    get_libraries (.clientError "boom") = .ok [] ∧
    get_libraries (.ok 404 .null) = .ok [] ∧
    (∃ libs, get_libraries (.ok 200 (.obj libsResponseBody)) = .ok libs ∧
      libs.length = 1) := by
  refine ⟨get_libraries_error_handling.1 "boom",
    get_libraries_error_handling.2.1 404 .null (by decide), ?_⟩
  exact get_libraries_error_handling.2.2 libsResponseBody (.cons sampleEntry .nil)
    rfl
    (fun entry he => by
      have he2 : entry ∈ [sampleEntry] := he
      rw [List.mem_singleton] at he2
      subst he2
      exact ⟨sampleLibrary, rfl⟩)

/-- Appending strings appends their character lists. -/
theorem strData_append (x y : String) : (x ++ y).data = x.data ++ y.data := rfl

/-- Strings with the same character list are equal. -/
theorem strOfDataInj {x y : String} (h : x.data = y.data) : x = y := by
  cases x
  cases y
  exact congrArg String.mk h

/-- The last element of an append with a non-empty right part. -/
theorem lastAppend (xs ys : List Char) (h : ys ≠ []) :
    (xs ++ ys).getLast? = ys.getLast? := by
  rw [List.getLast?_append]
  cases hl : ys.getLast? with
  | some c => rfl
  | none => exact absurd (List.getLast?_eq_none_iff.mp hl) h

/-- Strings ending in different characters differ, whatever they start
with. -/
theorem append_ne_of_lastChar {a b s t : String} (hs : s.data ≠ [])
    (ht : t.data ≠ []) (h : s.data.getLast? ≠ t.data.getLast?) :
    a ++ s ≠ b ++ t := by
  intro heq
  have hd : a.data ++ s.data = b.data ++ t.data := by
    rw [← strData_append, ← strData_append, heq]
  have : s.data.getLast? = t.data.getLast? := by
    rw [← lastAppend a.data s.data hs, ← lastAppend b.data t.data ht, hd]
  exact h this

/-- A registry key determines the library id between its fixed prefix and
suffix. -/
theorem key_suffix_inj {p s id1 id2 : String}
    (h : p ++ id1 ++ s = p ++ id2 ++ s) : id1 = id2 := by
  have hd : p.data ++ (id1.data ++ s.data) = p.data ++ (id2.data ++ s.data) := by
    have := congrArg String.data h
    rw [strData_append, strData_append, strData_append, strData_append] at this
    simpa [List.append_assoc] using this
  have h2 := List.append_cancel_left hd
  exact strOfDataInj (List.append_cancel_right h2)

/-- Assigning a key makes lookup return the new value. -/
theorem dictGet_insert_self {α : Type} (d : List (String × α)) (k : String)
    (v : α) : dictGet (dictInsert d k v) k = some v := by
  induction d with
  | nil => simp [dictInsert, dictGet]
  | cons kv rest ih =>
    obtain ⟨k2, v2⟩ := kv
    by_cases h : k2 = k
    · subst h
      simp [dictInsert, dictGet]
    · simp [dictInsert, dictGet, h, ih]

/-- Assigning one key leaves lookups of other keys unchanged. -/
theorem dictGet_insert_other {α : Type} (d : List (String × α)) (k k2 : String)
    (v : α) (hne : k2 ≠ k) : dictGet (dictInsert d k2 v) k = dictGet d k := by
  induction d with
  | nil => simp [dictInsert, dictGet, hne]
  | cons kv rest ih =>
    obtain ⟨k3, v3⟩ := kv
    by_cases h : k3 = k2
    · subst h
      simp [dictInsert, dictGet, hne]
    · simp [dictInsert, dictGet, h, ih]

/-- A successful lookup means the key is present. -/
theorem mem_keys_of_dictGet {α : Type} (d : List (String × α)) (k : String)
    (v : α) (h : dictGet d k = some v) : k ∈ dictKeys d := by
  induction d with
  | nil => exact Option.noConfusion h
  | cons kv rest ih =>
    obtain ⟨k2, v2⟩ := kv
    by_cases h2 : k2 = k
    · subst h2
      simp [dictKeys]
    · rw [dictGet, if_neg h2] at h
      simp [dictKeys]
      right
      have := ih h
      simpa [dictKeys] using this

/-- Key assignment keeps the key list, except that a new key is appended. -/
theorem keys_dictInsert {α : Type} (d : List (String × α)) (k : String) (v : α) :
    dictKeys (dictInsert d k v)
      = if k ∈ dictKeys d then dictKeys d else dictKeys d ++ [k] := by
  induction d with
  | nil => simp [dictInsert, dictKeys]
  | cons kv rest ih =>
    obtain ⟨k2, v2⟩ := kv
    by_cases h : k2 = k
    · subst h
      simp [dictInsert, dictKeys]
    · have hne : ¬(k = k2) := fun hh => h hh.symm
      simp only [dictInsert, if_neg h, dictKeys, List.map_cons, List.mem_cons, hne,
        false_or]
      have ih2 : List.map Prod.fst (dictInsert rest k v)
          = if k ∈ List.map Prod.fst rest then List.map Prod.fst rest
            else List.map Prod.fst rest ++ [k] := ih
      rw [ih2]
      by_cases hm : k ∈ List.map Prod.fst rest
      · rw [if_pos hm, if_pos hm]
      · rw [if_neg hm, if_neg hm]
        rfl

/-- Assigning an existing key keeps the dict size; a new key grows it by
one. -/
theorem length_dictInsert {α : Type} (d : List (String × α)) (k : String) (v : α) :
    (dictInsert d k v).length
      = if k ∈ dictKeys d then d.length else d.length + 1 := by
  induction d with
  | nil => simp [dictInsert, dictKeys]
  | cons kv rest ih =>
    obtain ⟨k2, v2⟩ := kv
    by_cases h : k2 = k
    · subst h
      simp [dictInsert, dictKeys]
    · have hne : ¬(k = k2) := fun hh => h hh.symm
      simp only [dictInsert, if_neg h, List.length_cons, List.mem_cons, hne,
        false_or, dictKeys] at ih ⊢
      rw [ih]
      by_cases hm : k ∈ List.map Prod.fst rest
      · rw [if_pos hm]
        simp [List.map_cons, hm]
      · rw [if_neg hm]
        simp [List.map_cons, hne, hm]

/-- An items key never collides with a size key (they end differently). -/
theorem items_ne_size (id1 id2 : String) : itemsKey id1 ≠ sizeKey id2 :=
  append_ne_of_lastChar (by decide) (by decide) (by decide)

/-- A duration key never collides with a size key. -/
theorem duration_ne_size (id1 id2 : String) : durationKey id1 ≠ sizeKey id2 :=
  append_ne_of_lastChar (by decide) (by decide) (by decide)

/-- A duration key never collides with an items key. -/
theorem duration_ne_items (id1 id2 : String) : durationKey id1 ≠ itemsKey id2 :=
  append_ne_of_lastChar (by decide) (by decide) (by decide)

/-- Size keys are injective in the library id. -/
theorem sizeKey_inj {id1 id2 : String} (h : sizeKey id1 = sizeKey id2) :
    id1 = id2 := key_suffix_inj h

/-- Items keys are injective in the library id. -/
theorem itemsKey_inj {id1 id2 : String} (h : itemsKey id1 = itemsKey id2) :
    id1 = id2 := key_suffix_inj h

/-- Duration keys are injective in the library id. -/
theorem durationKey_inj {id1 id2 : String}
    (h : durationKey id1 = durationKey id2) : id1 = id2 := key_suffix_inj h

/-- The three descriptors of a library are registered under its id, each
pointing at its stats endpoint. -/
def threeKeysP (L : Library) (d : Registry) : Prop :=
  (∃ s, dictGet d (sizeKey L.id) = some s ∧ s.endpoint = statsEndpoint L.id) ∧
  (∃ s, dictGet d (itemsKey L.id) = some s ∧ s.endpoint = statsEndpoint L.id) ∧
  (∃ s, dictGet d (durationKey L.id) = some s ∧ s.endpoint = statsEndpoint L.id)

/-- Inserting a descriptor preserves an endpoint-correct binding as long as
a colliding key carries the same endpoint. -/
theorem dictGet_endpoint_preserved {d : Registry} {k e : String}
    (h : ∃ s, dictGet d k = some s ∧ s.endpoint = e) (k2 : String)
    (v2 : SensorDescriptor) (hcase : k2 = k → v2.endpoint = e) :
    ∃ s, dictGet (dictInsert d k2 v2) k = some s ∧ s.endpoint = e := by
  obtain ⟨s, hs, hse⟩ := h
  by_cases hk : k2 = k
  · subst hk
    exact ⟨v2, dictGet_insert_self d k2 v2, hcase rfl⟩
  · exact ⟨s, by rw [dictGet_insert_other d k k2 v2 hk]; exact hs, hse⟩

/-- Registering a further library preserves an already registered library's
three bindings: a same-id registration overwrites with the same endpoint,
and keys of other ids or other suffixes never collide. -/
theorem threeKeysP_add (L M : Library) (d : Registry) (h : threeKeysP L d) :
    threeKeysP L (addLibrarySensors d M) := by
  obtain ⟨h1, h2, h3⟩ := h
  refine ⟨?_, ?_, ?_⟩
  · refine dictGet_endpoint_preserved (dictGet_endpoint_preserved
      (dictGet_endpoint_preserved h1 _ _ ?_) _ _ ?_) _ _ ?_
    · intro hk
      rw [show (sizeDescriptor M).endpoint = statsEndpoint M.id from rfl,
        sizeKey_inj hk]
    · intro hk
      exact absurd hk (items_ne_size M.id L.id)
    · intro hk
      exact absurd hk (duration_ne_size M.id L.id)
  · refine dictGet_endpoint_preserved (dictGet_endpoint_preserved
      (dictGet_endpoint_preserved h2 _ _ ?_) _ _ ?_) _ _ ?_
    · intro hk
      exact absurd hk fun hh => items_ne_size L.id M.id hh.symm
    · intro hk
      rw [show (itemsDescriptor M).endpoint = statsEndpoint M.id from rfl,
        itemsKey_inj hk]
    · intro hk
      exact absurd hk (duration_ne_items M.id L.id)
  · refine dictGet_endpoint_preserved (dictGet_endpoint_preserved
      (dictGet_endpoint_preserved h3 _ _ ?_) _ _ ?_) _ _ ?_
    · intro hk
      exact absurd hk fun hh => duration_ne_size L.id M.id hh.symm
    · intro hk
      exact absurd hk fun hh => duration_ne_items L.id M.id hh.symm
    · intro hk
      rw [show (durationDescriptor M).endpoint = statsEndpoint M.id from rfl,
        durationKey_inj hk]

/-- Registering a library establishes its three bindings. -/
theorem threeKeysP_self (L : Library) (d : Registry) :
    threeKeysP L (addLibrarySensors d L) := by
  refine ⟨⟨sizeDescriptor L, ?_, rfl⟩, ⟨itemsDescriptor L, ?_, rfl⟩,
    ⟨durationDescriptor L, dictGet_insert_self _ _ _, rfl⟩⟩
  · rw [addLibrarySensors,
      dictGet_insert_other _ _ _ _ (duration_ne_size L.id L.id),
      dictGet_insert_other _ _ _ _ (items_ne_size L.id L.id)]
    exact dictGet_insert_self _ _ _
  · rw [addLibrarySensors,
      dictGet_insert_other _ _ _ _ (duration_ne_items L.id L.id)]
    exact dictGet_insert_self _ _ _

/-- Folding further registrations preserves the three bindings. -/
theorem threeKeysP_foldl (L : Library) (libs : List Library) :
    ∀ d, threeKeysP L d → threeKeysP L (List.foldl addLibrarySensors d libs) := by
  induction libs with
  | nil => intro d h; exact h
  | cons M rest ih => intro d h; exact ih _ (threeKeysP_add L M d h)

/-- Every discovered library ends up with its three bindings. -/
theorem threeKeysP_of_mem (L : Library) (libs : List Library) :
    ∀ d, L ∈ libs → threeKeysP L (generate_library_sensors d libs) := by
  induction libs with
  | nil => intro d h; exact absurd h (List.not_mem_nil L)
  | cons M rest ih =>
    intro d hmem
    rcases List.mem_cons.mp hmem with rfl | h2
    · exact threeKeysP_foldl L rest _ (threeKeysP_self L d)
    · exact ih _ h2

/-- Re-running the extension over a registry that already holds every key it
would insert keeps the key list and the size. -/
theorem gen_keeps_size (libs : List Library) :
    ∀ d0 d : Registry, dictKeys d = dictKeys d0 → d.length = d0.length →
      (∀ L ∈ libs, sizeKey L.id ∈ dictKeys d0 ∧ itemsKey L.id ∈ dictKeys d0 ∧
        durationKey L.id ∈ dictKeys d0) →
      dictKeys (generate_library_sensors d libs) = dictKeys d0 ∧
      (generate_library_sensors d libs).length = d0.length := by
  induction libs with
  | nil => intro d0 d hk hl _; exact ⟨hk, hl⟩
  | cons M rest ih =>
    intro d0 d hk hl hmem
    obtain ⟨hms, hmi, hmd⟩ := hmem M (List.mem_cons_self M rest)
    have h1k : dictKeys (dictInsert d (sizeKey M.id) (sizeDescriptor M))
        = dictKeys d0 := by
      rw [keys_dictInsert, hk, if_pos hms]
    have h1l : (dictInsert d (sizeKey M.id) (sizeDescriptor M)).length
        = d0.length := by
      rw [length_dictInsert, hk, if_pos hms, hl]
    have h2k : dictKeys (dictInsert (dictInsert d (sizeKey M.id) (sizeDescriptor M))
        (itemsKey M.id) (itemsDescriptor M)) = dictKeys d0 := by
      rw [keys_dictInsert, h1k, if_pos hmi]
    have h2l : (dictInsert (dictInsert d (sizeKey M.id) (sizeDescriptor M))
        (itemsKey M.id) (itemsDescriptor M)).length = d0.length := by
      rw [length_dictInsert, h1k, if_pos hmi, h1l]
    have h3k : dictKeys (addLibrarySensors d M) = dictKeys d0 := by
      rw [addLibrarySensors, keys_dictInsert, h2k, if_pos hmd]
    have h3l : (addLibrarySensors d M).length = d0.length := by
      rw [addLibrarySensors, length_dictInsert, h2k, if_pos hmd, h2l]
    exact ih d0 (addLibrarySensors d M) h3k h3l
      fun L hL => hmem L (List.mem_cons_of_mem M hL)

/-- After the extension, the three keys of every discovered library are
present. -/
theorem gen_keys_present (d : Registry) (libs : List Library) (L : Library)
    (hL : L ∈ libs) :
    sizeKey L.id ∈ dictKeys (generate_library_sensors d libs) ∧
    itemsKey L.id ∈ dictKeys (generate_library_sensors d libs) ∧
    durationKey L.id ∈ dictKeys (generate_library_sensors d libs) := by
  obtain ⟨⟨s1, hs1, _⟩, ⟨s2, hs2, _⟩, ⟨s3, hs3, _⟩⟩ := threeKeysP_of_mem L libs d hL
  exact ⟨mem_keys_of_dictGet _ _ _ hs1, mem_keys_of_dictGet _ _ _ hs2,
    mem_keys_of_dictGet _ _ _ hs3⟩

/-- C5: after registry extension each discovered library id carries exactly
three descriptors — the three keys are pairwise distinct and each maps to a
descriptor with that library's stats endpoint — and running the extension a
second time with the same library list leaves the registry size unchanged
(re-registering overwrites). -/
theorem library_registry_extension_idempotent (d : Registry)
    (libs : List Library) :
    (∀ L ∈ libs,
      sizeKey L.id ≠ itemsKey L.id ∧ sizeKey L.id ≠ durationKey L.id ∧
      itemsKey L.id ≠ durationKey L.id ∧
      threeKeysP L (generate_library_sensors d libs)) ∧
    (generate_library_sensors (generate_library_sensors d libs) libs).length
      = (generate_library_sensors d libs).length := by
  constructor
  · intro L hL
    exact ⟨fun h => items_ne_size L.id L.id h.symm,
      fun h => duration_ne_size L.id L.id h.symm,
      fun h => duration_ne_items L.id L.id h.symm,
      threeKeysP_of_mem L libs d hL⟩
  · exact (gen_keeps_size libs (generate_library_sensors d libs)
      (generate_library_sensors d libs) rfl rfl
      fun L hL => gen_keys_present d libs L hL).2

/-- Witness for C5: the sample library has its three bindings in the
extended fixed registry, and re-running the extension keeps its size. -/
theorem library_registry_extension_idempotent_witness :
    threeKeysP sampleLibrary sampleRegistry ∧
    (generate_library_sensors sampleRegistry [sampleLibrary]).length
      = sampleRegistry.length := by
  obtain ⟨h1, h2⟩ := library_registry_extension_idempotent sensors [sampleLibrary]
  exact ⟨(h1 sampleLibrary (List.mem_cons_self sampleLibrary [])).2.2.2, h2⟩
